import Mathlib

/-!
Verification of the HackForums API proxy
(src/src/infrastructure/proxy/proxy.py).

Modelling conventions:
- Byte strings are modelled as Lean String values.
- Header collections are ordered multimaps: lists of name/value pairs.
- The module-level globals PORT, HF_CLIENT_ID, HF_CLIENT_SECRET and
  PROXY_API_KEY form the Env structure; an unset environment variable is
  modelled as none, matching os.getenv returning None.
- Fallible Python operations (int applied to a malformed string) surface
  as Except values: an error value is an uncaught Python exception that
  escapes the handler, in which case no response is written.
- Observable per-request effects are collected in HandlerOutput: the
  response written to the client (or the escaped exception), the log
  lines (without the timestamp prefix added by log_message), the
  outbound calls issued through the requests library, and the number of
  body bytes read from the inbound connection.
-/

namespace HFProxy

/-- Module-level configuration globals of proxy.py (lines 14 to 18).
PORT is kept already parsed with its default 8080; the three credential
globals are os.getenv results, so an unset variable is none. -/
structure Env where
  PORT : Nat
  HF_CLIENT_ID : Option String
  HF_CLIENT_SECRET : Option String
  PROXY_API_KEY : Option String
deriving DecidableEq

/-- Fixed upstream base URL (proxy.py line 15). -/
def HF_API_BASE : String := "https://hackforums.net/api/v2"

/-- Inbound HTTP request as the handler sees it: method, path with query
string exactly as received, header pairs, and the body bytes available
on the inbound connection. -/
structure InboundRequest where
  method : String
  path : String
  headers : List (String × String)
  body : String
deriving DecidableEq

/-- Response written back to the client: status code, the headers the
handler itself sends via send_header (the automatic Server and Date
headers added by the base class are framework furniture and omitted),
and the body bytes. -/
structure Response where
  status : Nat
  headers : List (String × String)
  body : String
deriving DecidableEq

/-- Outbound request issued to the upstream through the requests
library. -/
structure OutboundRequest where
  method : String
  url : String
  headers : List (String × String)
  body : Option String
  timeout : Nat
deriving DecidableEq

/-- Upstream response as exposed by the requests library: status code,
header pairs, and content bytes. -/
structure UpstreamResponse where
  status : Nat
  headers : List (String × String)
  content : String
deriving DecidableEq

/-- Result of one outbound call: a response, or a transport failure
raised as requests.RequestException carrying a message. -/
inductive UpstreamResult where
  | ok (r : UpstreamResponse)
  | exn (msg : String)
deriving DecidableEq

/-- Lowercasing of an ASCII string, modelling str.lower on the ASCII
header names involved. Defined over the character list so that it
evaluates by kernel reduction. -/
def asciiLower (s : String) : String := ⟨s.data.map Char.toLower⟩

/-- Python slice s up to n characters, modelling s[:n] and the take used
by the body read. Defined over the character list so that it evaluates
by kernel reduction. -/
def strTake (s : String) (n : Nat) : String := ⟨s.data.take n⟩

/-- Whitespace stripping on both ends, modelling str.strip as applied by
int to its argument. -/
def pyStrip (s : String) : String :=
  ⟨((s.data.dropWhile Char.isWhitespace).reverse.dropWhile Char.isWhitespace).reverse⟩

/-- Case-insensitive header lookup returning the first match, the way
the email.message mapping behind self.headers resolves get. -/
def headerFind? (hs : List (String × String)) (name : String) : Option String :=
  (hs.find? (fun p => asciiLower p.1 == asciiLower name)).map Prod.snd

/-- Header lookup with a default, modelling self.headers.get(name, dflt)
for a string default. -/
def headerGetD (hs : List (String × String)) (name dflt : String) : String :=
  (headerFind? hs name).getD dflt

/-- Python inequality between a str and an Optional str: comparing a str
with None is always unequal; two strings compare by value. Models the
comparison api_key != PROXY_API_KEY at proxy.py line 30. -/
def pyStrNe (a : String) : Option String → Bool
  | none => true
  | some b => a != b

/-- Truthiness of an Optional str: None and the empty string are falsy,
every other string is truthy. -/
def pyTruthy : Option String → Bool
  | none => false
  | some s => s != ""

/-- Value of an Optional str interpolated into an f-string: None prints
as the four characters None. -/
def pyShow : Option String → String
  | none => "None"
  | some s => s

/-- Digit run with single underscores allowed between digits, following
the grammar accepted by int on a decimal string. The first character of
the input list must already be a digit when called from pyDigits?. -/
def pyDigitsAux : List Char → Nat → Option Nat
  | [], acc => some acc
  | c :: cs, acc =>
    if c.isDigit then pyDigitsAux cs (acc * 10 + (c.toNat - 48))
    else if c = '_' then
      match cs with
      | [] => none
      | d :: cs2 => if d.isDigit then pyDigitsAux cs2 (acc * 10 + (d.toNat - 48)) else none
    else none

/-- Nonempty digit run starting with a digit. -/
def pyDigits? : List Char → Option Nat
  | [] => none
  | c :: cs => if c.isDigit then pyDigitsAux (c :: cs) 0 else none

/-- Conversion int(s) applied to a Python str: optional surrounding
whitespace, an optional sign, then decimal digits; any other shape
raises ValueError, modelled as none. -/
def pyIntOfStr? (s : String) : Option Int :=
  match (pyStrip s).data with
  | [] => none
  | c :: rest =>
    if c = '-' then (pyDigits? rest).map (fun n => -(n : Int))
    else if c = '+' then (pyDigits? rest).map (fun n => (n : Int))
    else (pyDigits? (c :: rest)).map (fun n => (n : Int))

/-- Evaluation of int applied to self.headers.get with default 0 at
proxy.py line 54: an absent Content-Length header yields the int 0
directly; a present header value is parsed by int, and a malformed value
raises ValueError, modelled as the error case. -/
def contentLengthOf (hs : List (String × String)) : Except String Int :=
  match headerFind? hs "Content-Length" with
  | none => Except.ok 0
  | some v =>
    match pyIntOfStr? v with
    | some n => Except.ok n
    | none => Except.error ("ValueError: invalid literal for int() with base 10: \x27" ++ v ++ "\x27")

/-- Response sent by _validate_api_key on a key mismatch (proxy.py lines
31 to 34). -/
def invalidKeyResponse : Response where
  status := 401
  headers := [("Content-Type", "application/json")]
  body := "\x7b\"error\": \"Invalid API key\"\x7d"

/-- Response of the method branch at proxy.py lines 64 to 67. -/
def methodNotAllowedResponse : Response where
  status := 405
  headers := [("Content-Type", "text/plain")]
  body := "Method Not Allowed"

/-- Response sent when the outbound call raises RequestException
(proxy.py lines 80 to 83). -/
def badGatewayResponse : Response where
  status := 502
  headers := [("Content-Type", "application/json")]
  body := "\x7b\"error\": \"Bad Gateway\"\x7d"

/-- Lowercase header names dropped when relaying the upstream response
(proxy.py line 73). -/
def droppedHeaderNames : List String := ["transfer-encoding", "connection"]

/-- Header relay filter of proxy.py lines 72 to 74: keep every upstream
header whose lowercased name is not in the dropped list. -/
def relayHeaders (hs : List (String × String)) : List (String × String) :=
  hs.filter (fun p => !(droppedHeaderNames.contains (asciiLower p.1)))

/-- Relay of a successful upstream response (proxy.py lines 70 to 76):
same status, filtered headers, content bytes unchanged. -/
def relaySuccess (r : UpstreamResponse) : Response where
  status := r.status
  headers := relayHeaders r.headers
  body := r.content

/-- Observable effects of handling one request. An error outcome is an
uncaught Python exception escaping the handler, in which case no
response is written for the request. -/
structure HandlerOutput where
  outcome : Except String Response
  logs : List String
  calls : List OutboundRequest
  bytesRead : Nat

/-- Relay phase after the outbound call has been issued: either relay
the upstream response (proxy.py lines 70 to 76) or answer 502 on
RequestException (lines 78 to 83), logging the failure detail. -/
def finishCall (oreq : OutboundRequest) (res : UpstreamResult)
    (logLine : String) (bytesRead : Nat) : HandlerOutput :=
  match res with
  | UpstreamResult.ok r =>
      { outcome := Except.ok (relaySuccess r)
        logs := [logLine]
        calls := [oreq]
        bytesRead := bytesRead }
  | UpstreamResult.exn msg =>
      { outcome := Except.ok badGatewayResponse
        logs := [logLine, "Error proxying request: " ++ msg]
        calls := [oreq]
        bytesRead := bytesRead }

/-- Embedding of ProxyHandler._proxy_request together with the inlined
_validate_api_key (proxy.py lines 27 to 83). The upstream parameter
gives the behavior of the requests library for each outbound request.
Steps in source order: key check, target URL, proxy log line, outbound
header dict, Content-Length read (which may raise), body read, then the
method dispatch inside the try block. -/
def proxyRequest (env : Env) (upstream : OutboundRequest → UpstreamResult)
    (method : String) (req : InboundRequest) : HandlerOutput :=
  let apiKey := headerGetD req.headers "X-API-Key" ""
  if pyStrNe apiKey env.PROXY_API_KEY then
    { outcome := Except.ok invalidKeyResponse, logs := [], calls := [], bytesRead := 0 }
  else
    let url := HF_API_BASE ++ req.path
    let logLine := "Proxying " ++ method ++ " " ++ url
    match contentLengthOf req.headers with
    | Except.error e =>
        { outcome := Except.error e, logs := [logLine], calls := [], bytesRead := 0 }
    | Except.ok contentLength =>
        let bodyRead : Option String :=
          if 0 < contentLength then some (strTake req.body contentLength.toNat) else none
        let bytesRead : Nat :=
          if 0 < contentLength then min contentLength.toNat req.body.length else 0
        let hfHeaders : List (String × String) :=
          [("Authorization", "Bearer " ++ pyShow env.HF_CLIENT_ID),
           ("Content-Type", "application/json")]
        if method = "GET" then
          let oreq : OutboundRequest :=
            { method := "GET", url := url, headers := hfHeaders, body := none, timeout := 30 }
          finishCall oreq (upstream oreq) logLine bytesRead
        else if method = "POST" then
          let oreq : OutboundRequest :=
            { method := "POST", url := url, headers := hfHeaders, body := bodyRead, timeout := 30 }
          finishCall oreq (upstream oreq) logLine bytesRead
        else
          { outcome := Except.ok methodNotAllowedResponse
            logs := [logLine]
            calls := []
            bytesRead := bytesRead }

/-- Response produced by send_error 501 in the base class for a method
without a matching handler method. The real body is the HTML error page
of the library; it is abbreviated here to its message, since only the
status and content type of this branch are ever at stake. -/
def unsupportedMethodResponse (m : String) : Response where
  status := 501
  headers := [("Content-Type", "text/html;charset=utf-8"), ("Connection", "close")]
  body := "Unsupported method (\x27" ++ m ++ "\x27)"

/-- Per-request dispatch. ProxyHandler defines only do_GET and do_POST
(proxy.py lines 85 to 91); for any other method the base class
BaseHTTPRequestHandler finds no matching do_ method and answers
send_error 501 Unsupported method, so _proxy_request never runs. -/
def serverHandle (env : Env) (upstream : OutboundRequest → UpstreamResult)
    (req : InboundRequest) : HandlerOutput :=
  if req.method = "GET" then proxyRequest env upstream "GET" req
  else if req.method = "POST" then proxyRequest env upstream "POST" req
  else
    { outcome := Except.ok (unsupportedMethodResponse req.method)
      logs := []
      calls := []
      bytesRead := 0 }

/-- Outcome of main (proxy.py lines 93 to 113): the exit code when
sys.exit ran, the lines printed to stdout, and whether the HTTPServer
object was created and bound. -/
structure MainResult where
  exitCode : Option Nat
  printed : List String
  serverCreated : Bool
deriving DecidableEq

/-- The set-or-missing diagnostic used at proxy.py lines 98 to 100. -/
def setOrMissing (v : Option String) : String :=
  if pyTruthy v then "set" else "missing"

/-- Conjunction all of the three mandatory globals at proxy.py line 96. -/
def requiredSet (env : Env) : Bool :=
  pyTruthy env.HF_CLIENT_ID && pyTruthy env.HF_CLIENT_SECRET && pyTruthy env.PROXY_API_KEY

/-- Embedding of main (proxy.py lines 93 to 107): validate the three
mandatory globals, exiting with code 1 after the diagnostics when one is
falsy; otherwise create the server and print the three startup lines.
The serve_forever loop and the shutdown path add no further stdout lines
on the success path modelled here. In the success branch the two getD
applications are vacuous: the truthiness check guarantees both values
are present. -/
def main (env : Env) : MainResult :=
  if !(requiredSet env) then
    { exitCode := some 1
      printed :=
        ["ERROR: Missing required environment variables",
         "HF_CLIENT_ID: " ++ setOrMissing env.HF_CLIENT_ID,
         "HF_CLIENT_SECRET: " ++ setOrMissing env.HF_CLIENT_SECRET,
         "PROXY_API_KEY: " ++ setOrMissing env.PROXY_API_KEY]
      serverCreated := false }
  else
    { exitCode := none
      printed :=
        ["Starting HackForums API proxy on port " ++ toString env.PORT,
         "HF Client ID: " ++ strTake (env.HF_CLIENT_ID.getD "") 20 ++ "...",
         "Proxy API Key: " ++ strTake (env.PROXY_API_KEY.getD "") 8 ++ "..."]
      serverCreated := true }

/-- Containment of a full secret value inside one printed line. -/
def containsFull (line secret : String) : Prop :=
  ∃ a b, line = a ++ secret ++ b

/-- Concrete environment with all credentials configured. -/
def envA : Env where
  PORT := 8080
  HF_CLIENT_ID := some "hfclient"
  HF_CLIENT_SECRET := some "hfsecret"
  PROXY_API_KEY := some "secret123"

/-- Concrete environment equal to envA except for the client secret. -/
def envB : Env where
  PORT := 8080
  HF_CLIENT_ID := some "hfclient"
  HF_CLIENT_SECRET := some "otherhfsecret"
  PROXY_API_KEY := some "secret123"

/-- Concrete environment whose proxy key is shorter than the printed
prefix length. -/
def envShortKey : Env where
  PORT := 8080
  HF_CLIENT_ID := some "hfclient"
  HF_CLIENT_SECRET := some "hfsecret"
  PROXY_API_KEY := some "abc"

/-- Concrete environment missing the client id variable. -/
def envMissingId : Env where
  PORT := 8080
  HF_CLIENT_ID := none
  HF_CLIENT_SECRET := some "hfsecret"
  PROXY_API_KEY := some "secret123"

/-- Concrete upstream behavior: every call answers 201 with one ordinary
and one hop-by-hop header. -/
def upstreamA : OutboundRequest → UpstreamResult :=
  fun _ => UpstreamResult.ok
    { status := 201
      headers := [("X-Foo", "bar"), ("Transfer-Encoding", "chunked")]
      content := "\x7b\"id\":1\x7d" }

/-- Concrete upstream response relayed by upstreamA. -/
def upstreamRespA : UpstreamResponse where
  status := 201
  headers := [("X-Foo", "bar"), ("Transfer-Encoding", "chunked")]
  content := "\x7b\"id\":1\x7d"

/-- Concrete PUT request without an X-API-Key header. -/
def reqPut : InboundRequest where
  method := "PUT"
  path := "/threads"
  headers := []
  body := ""

/-- Concrete GET request without an X-API-Key header. -/
def reqNoKeyGet : InboundRequest where
  method := "GET"
  path := "/threads"
  headers := []
  body := ""

/-- Concrete authenticated GET request. -/
def reqGet : InboundRequest where
  method := "GET"
  path := "/t"
  headers := [("X-API-Key", "secret123")]
  body := ""

/-- Concrete authenticated DELETE request. -/
def reqDelete : InboundRequest where
  method := "DELETE"
  path := "/threads/9"
  headers := [("X-API-Key", "secret123")]
  body := ""

/-- Concrete authenticated GET request with a malformed Content-Length
header value. -/
def reqBadLen : InboundRequest where
  method := "GET"
  path := "/x"
  headers := [("X-API-Key", "secret123"), ("Content-Length", "abc")]
  body := ""

/-- Concrete authenticated GET request to a thread path. -/
def reqThreads : InboundRequest where
  method := "GET"
  path := "/threads/123"
  headers := [("X-API-Key", "secret123")]
  body := ""

/-- Concrete authenticated GET request declaring a positive
Content-Length with a matching inbound body. -/
def reqGetBody : InboundRequest where
  method := "GET"
  path := "/g"
  headers := [("X-API-Key", "secret123"), ("Content-Length", "4")]
  body := "abcd"

/-- Concrete authenticated POST request declaring a positive
Content-Length with a matching inbound body. -/
def reqPostBody : InboundRequest where
  method := "POST"
  path := "/threads"
  headers := [("X-API-Key", "secret123"), ("Content-Length", "4")]
  body := "abcd"

/-- Outbound request built by _proxy_request for an authenticated GET or
POST whose Content-Length evaluated to n: fixed credential headers, the
concatenated target URL, 30 second timeout, and a body only on POST with
a positive declared length. Factors the common shape out of the two
dispatch arms at proxy.py lines 59 to 62. -/
def mkOutbound (env : Env) (method : String) (req : InboundRequest) (n : Int) : OutboundRequest where
  method := method
  url := HF_API_BASE ++ req.path
  headers :=
    [("Authorization", "Bearer " ++ pyShow env.HF_CLIENT_ID),
     ("Content-Type", "application/json")]
  body := if method = "POST" then (if 0 < n then some (strTake req.body n.toNat) else none) else none
  timeout := 30

end HFProxy

namespace HFProxy

lemma finishCall_calls_eq (oreq : OutboundRequest) (res : UpstreamResult)
    (logLine : String) (b : Nat) : (finishCall oreq res logLine b).calls = [oreq] := by
  cases res <;> rfl

lemma finishCall_bytesRead_eq (oreq : OutboundRequest) (res : UpstreamResult)
    (logLine : String) (b : Nat) : (finishCall oreq res logLine b).bytesRead = b := by
  cases res <;> rfl

lemma count_relayHeaders (hs : List (String × String)) (nv : String × String) :
    (relayHeaders hs).count nv =
      if asciiLower nv.1 = "transfer-encoding" ∨ asciiLower nv.1 = "connection" then 0
      else hs.count nv := by
  by_cases hd : asciiLower nv.1 = "transfer-encoding" ∨ asciiLower nv.1 = "connection"
  · rw [if_pos hd]
    apply List.count_eq_zero.mpr
    intro hmem
    rw [relayHeaders, List.mem_filter] at hmem
    have hc := hmem.2
    simp only [droppedHeaderNames, List.contains_cons, List.contains_nil,
      Bool.not_eq_true', Bool.or_eq_false_iff, beq_eq_false_iff_ne] at hc
    rcases hd with h | h
    · exact hc.1 h
    · exact hc.2.1 h
  · rw [if_neg hd]
    rw [relayHeaders]
    apply List.count_filter
    push_neg at hd
    simp [droppedHeaderNames, hd.1, hd.2]

lemma serverHandle_dispatch (env : Env) (upstream : OutboundRequest → UpstreamResult)
    (req : InboundRequest) (h : req.method = "GET" ∨ req.method = "POST") :
    serverHandle env upstream req = proxyRequest env upstream req.method req := by
  rcases h with h | h <;> rw [serverHandle, h] <;> simp

lemma pyStrNe_of_eq (env : Env) (req : InboundRequest) (key : String)
    (hsk : env.PROXY_API_KEY = some key)
    (hkey : headerGetD req.headers "X-API-Key" "" = key) :
    pyStrNe (headerGetD req.headers "X-API-Key" "") env.PROXY_API_KEY = false := by
  rw [hsk, hkey]
  simp [pyStrNe]

lemma proxyRequest_authed (env : Env) (upstream : OutboundRequest → UpstreamResult)
    (method : String) (req : InboundRequest) (key : String) (n : Int)
    (hmethod : method = "GET" ∨ method = "POST")
    (hsk : env.PROXY_API_KEY = some key)
    (hkey : headerGetD req.headers "X-API-Key" "" = key)
    (hcl : contentLengthOf req.headers = Except.ok n) :
    proxyRequest env upstream method req =
      finishCall (mkOutbound env method req n) (upstream (mkOutbound env method req n))
        ("Proxying " ++ method ++ " " ++ (HF_API_BASE ++ req.path))
        (if 0 < n then min n.toNat req.body.length else 0) := by
  have hcond := pyStrNe_of_eq env req key hsk hkey
  rcases hmethod with h | h <;> subst h <;>
    simp [proxyRequest, hcond, hcl, mkOutbound]

/-- C1 (counterexample): the claim promises a 401 response for a missing
or wrong X-API-Key regardless of method, but a PUT request with no
X-API-Key header is answered 501 by the base-class dispatch, not 401:
the handler with its key check never runs for methods other than GET and
POST. -/
theorem c1_put_request_not_401 :
    ((serverHandle envA upstreamA reqPut).outcome.toOption.map Response.status = some 501)
    ∧ ¬((serverHandle envA upstreamA reqPut).outcome.toOption.map Response.status = some 401)
    ∧ (serverHandle envA upstreamA reqPut).calls = [] := by
  refine ⟨rfl, by decide, rfl⟩

/-- C1 (amended): for every GET or POST request whose X-API-Key header
is absent or whose value is not exactly the configured proxy secret, the
handler responds 401 with content type application/json and the fixed
error body, and makes no outbound call to the upstream. -/
theorem c1_unauthenticated_get_post_rejected (env : Env)
    (upstream : OutboundRequest → UpstreamResult) (req : InboundRequest) (key : String)
    (hsk : env.PROXY_API_KEY = some key)
    (hne : key ≠ "")
    (hm : req.method = "GET" ∨ req.method = "POST")
    (hkey : headerFind? req.headers "X-API-Key" = none
            ∨ headerGetD req.headers "X-API-Key" "" ≠ key) :
    ∃ resp, (serverHandle env upstream req).outcome = Except.ok resp
      ∧ resp.status = 401
      ∧ resp.headers = [("Content-Type", "application/json")]
      ∧ resp.body = "\x7b\"error\": \"Invalid API key\"\x7d"
      ∧ (serverHandle env upstream req).calls = [] := by
  have hne2 : headerGetD req.headers "X-API-Key" "" ≠ key := by
    rcases hkey with h | h
    · rw [headerGetD, h]
      simpa using Ne.symm hne
    · exact h
  have hcond : pyStrNe (headerGetD req.headers "X-API-Key" "") env.PROXY_API_KEY = true := by
    rw [hsk]
    simp only [pyStrNe]
    exact bne_iff_ne.mpr hne2
  have hout : serverHandle env upstream req =
      { outcome := Except.ok invalidKeyResponse, logs := [], calls := [], bytesRead := 0 } := by
    rw [serverHandle_dispatch env upstream req hm]
    simp [proxyRequest, hcond]
  exact ⟨invalidKeyResponse, by rw [hout], rfl, rfl, rfl, by rw [hout]⟩

/-- C1 (witness): a GET request with no X-API-Key header against the
concrete configuration receives exactly the 401 JSON rejection and
triggers no outbound call. -/
theorem c1_witness_absent_key_get :
    ∃ resp, (serverHandle envA upstreamA reqNoKeyGet).outcome = Except.ok resp
      ∧ resp.status = 401
      ∧ resp.headers = [("Content-Type", "application/json")]
      ∧ resp.body = "\x7b\"error\": \"Invalid API key\"\x7d"
      ∧ (serverHandle envA upstreamA reqNoKeyGet).calls = [] :=
  c1_unauthenticated_get_post_rejected envA upstreamA reqNoKeyGet "secret123"
    rfl (by decide) (Or.inl rfl) (Or.inl rfl)

/-- C2: for every authenticated GET or POST whose upstream call returns
a response, the proxy response carries the same status code, contains
every upstream header pair whose lowercased name is neither
transfer-encoding nor connection, contains nothing else, preserves the
multiplicity of every forwarded name/value pair, and relays the upstream
body bytes unchanged. -/
theorem c2_success_relay (env : Env) (r : UpstreamResponse) (req : InboundRequest)
    (key : String) (n : Int)
    (hsk : env.PROXY_API_KEY = some key)
    (hkey : headerGetD req.headers "X-API-Key" "" = key)
    (hm : req.method = "GET" ∨ req.method = "POST")
    (hcl : contentLengthOf req.headers = Except.ok n) :
    ∃ resp, (serverHandle env (fun _ => UpstreamResult.ok r) req).outcome = Except.ok resp
      ∧ resp.status = r.status
      ∧ (∀ nv ∈ r.headers, asciiLower nv.1 ≠ "transfer-encoding" →
           asciiLower nv.1 ≠ "connection" → nv ∈ resp.headers)
      ∧ (∀ nv ∈ resp.headers, nv ∈ r.headers
           ∧ asciiLower nv.1 ≠ "transfer-encoding" ∧ asciiLower nv.1 ≠ "connection")
      ∧ (∀ nv : String × String, resp.headers.count nv =
           if asciiLower nv.1 = "transfer-encoding" ∨ asciiLower nv.1 = "connection" then 0
           else r.headers.count nv)
      ∧ resp.body = r.content := by
  rw [serverHandle_dispatch env (fun _ => UpstreamResult.ok r) req hm,
    proxyRequest_authed env (fun _ => UpstreamResult.ok r) req.method req key n hm hsk hkey hcl]
  refine ⟨relaySuccess r, rfl, rfl, ?_, ?_, ?_, rfl⟩
  · intro nv h1 h2 h3
    show nv ∈ relayHeaders r.headers
    rw [relayHeaders, List.mem_filter]
    exact ⟨h1, by simp [droppedHeaderNames, h2, h3]⟩
  · intro nv hmem
    have hmem2 : nv ∈ relayHeaders r.headers := hmem
    rw [relayHeaders, List.mem_filter] at hmem2
    have hc := hmem2.2
    simp only [droppedHeaderNames, List.contains_cons, List.contains_nil,
      Bool.not_eq_true', Bool.or_eq_false_iff, beq_eq_false_iff_ne] at hc
    exact ⟨hmem2.1, hc.1, hc.2.1⟩
  · intro nv
    exact count_relayHeaders r.headers nv

/-- C2 (witness): against a mock upstream answering 201 with headers
X-Foo bar and Transfer-Encoding chunked, the authenticated GET receives
status 201, the X-Foo header, no hop-by-hop header, and the exact body
bytes. -/
theorem c2_witness_mock_201 :
    ∃ resp, (serverHandle envA (fun _ => UpstreamResult.ok upstreamRespA) reqGet).outcome
        = Except.ok resp
      ∧ resp.status = 201
      ∧ ("X-Foo", "bar") ∈ resp.headers
      ∧ (∀ nv ∈ resp.headers, asciiLower nv.1 ≠ "transfer-encoding" ∧ asciiLower nv.1 ≠ "connection")
      ∧ resp.body = "\x7b\"id\":1\x7d" := by
  obtain ⟨resp, hout, hst, hfwd, hback, hcnt, hbody⟩ :=
    c2_success_relay envA upstreamRespA reqGet "secret123" 0 rfl (by decide) (Or.inl rfl) rfl
  refine ⟨resp, hout, by rw [hst]; rfl, ?_, ?_, by rw [hbody]; rfl⟩
  · exact hfwd ("X-Foo", "bar") (by decide) (by decide) (by decide)
  · intro nv hnv
    exact ⟨(hback nv hnv).2.1, (hback nv hnv).2.2⟩

/-- C3: for every authenticated GET or POST whose outbound call raises a
transport-level RequestException, the proxy responds 502 with content
type application/json and exactly the fixed Bad Gateway body, which does
not depend on the failure message, while the failure message is written
to the server-side log. -/
theorem c3_transport_failure_502 (env : Env) (req : InboundRequest)
    (key msg : String) (n : Int)
    (hsk : env.PROXY_API_KEY = some key)
    (hkey : headerGetD req.headers "X-API-Key" "" = key)
    (hm : req.method = "GET" ∨ req.method = "POST")
    (hcl : contentLengthOf req.headers = Except.ok n) :
    ∃ resp, (serverHandle env (fun _ => UpstreamResult.exn msg) req).outcome = Except.ok resp
      ∧ resp.status = 502
      ∧ resp.headers = [("Content-Type", "application/json")]
      ∧ resp.body = "\x7b\"error\": \"Bad Gateway\"\x7d"
      ∧ ("Error proxying request: " ++ msg) ∈ (serverHandle env (fun _ => UpstreamResult.exn msg) req).logs := by
  rw [serverHandle_dispatch env (fun _ => UpstreamResult.exn msg) req hm,
    proxyRequest_authed env (fun _ => UpstreamResult.exn msg) req.method req key n hm hsk hkey hcl]
  exact ⟨badGatewayResponse, rfl, rfl, rfl, rfl, by simp [finishCall]⟩

/-- C3 (witness): a connection-refused failure on the concrete
authenticated GET yields the 502 JSON response and the logged failure
detail. -/
theorem c3_witness_connection_refused :
    ∃ resp, (serverHandle envA (fun _ => UpstreamResult.exn "connection refused") reqGet).outcome
        = Except.ok resp
      ∧ resp.status = 502
      ∧ resp.headers = [("Content-Type", "application/json")]
      ∧ resp.body = "\x7b\"error\": \"Bad Gateway\"\x7d"
      ∧ ("Error proxying request: " ++ "connection refused")
          ∈ (serverHandle envA (fun _ => UpstreamResult.exn "connection refused") reqGet).logs :=
  c3_transport_failure_502 envA reqGet "secret123" "connection refused" 0
    rfl (by decide) (Or.inl rfl) rfl

end HFProxy

namespace HFProxy

/-- C4 (code evaluation at the failing input): an authenticated DELETE
request is answered 501 by the base-class dispatch, with no upstream
call, and not the 405 text/plain response the specification states; the
405 branch of _proxy_request is unreachable because only do_GET and
do_POST exist. -/
theorem c4_other_method_gets_501_not_405 :
    ((serverHandle envA upstreamA reqDelete).outcome.toOption.map Response.status = some 501)
    ∧ ¬((serverHandle envA upstreamA reqDelete).outcome.toOption.map Response.status = some 405)
    ∧ (serverHandle envA upstreamA reqDelete).calls = [] := by
  refine ⟨rfl, by decide, rfl⟩

/-- C5: every outbound call of an authenticated GET or POST carries
exactly the two fixed headers, Authorization Bearer with the configured
upstream client id and Content-Type application/json, so no inbound
header is forwarded. -/
theorem c5_outbound_headers_fixed (env : Env)
    (upstream : OutboundRequest → UpstreamResult) (req : InboundRequest)
    (key cid : String) (n : Int)
    (hsk : env.PROXY_API_KEY = some key)
    (hcid : env.HF_CLIENT_ID = some cid)
    (hkey : headerGetD req.headers "X-API-Key" "" = key)
    (hm : req.method = "GET" ∨ req.method = "POST")
    (hcl : contentLengthOf req.headers = Except.ok n) :
    ∃ oreq, (serverHandle env upstream req).calls = [oreq]
      ∧ oreq.headers =
          [("Authorization", "Bearer " ++ cid), ("Content-Type", "application/json")] := by
  rw [serverHandle_dispatch env upstream req hm,
    proxyRequest_authed env upstream req.method req key n hm hsk hkey hcl]
  refine ⟨mkOutbound env req.method req n, finishCall_calls_eq _ _ _ _, ?_⟩
  simp [mkOutbound, hcid, pyShow]

/-- C5 (witness): the concrete authenticated GET issues exactly one
outbound call whose header list is the fixed Bearer credential and JSON
content type. -/
theorem c5_witness_bearer_injection :
    ∃ oreq, (serverHandle envA upstreamA reqGet).calls = [oreq]
      ∧ oreq.headers =
          [("Authorization", "Bearer hfclient"), ("Content-Type", "application/json")] := by
  obtain ⟨o, h1, h2⟩ := c5_outbound_headers_fixed envA upstreamA reqGet
    "secret123" "hfclient" 0 rfl rfl (by decide) (Or.inl rfl) rfl
  exact ⟨o, h1, by rw [h2]; rfl⟩

/-- C6: every outbound call of an authenticated GET or POST targets the
fixed upstream base URL concatenated with the inbound path and query
string exactly as received. -/
theorem c6_target_url_concatenation (env : Env)
    (upstream : OutboundRequest → UpstreamResult) (req : InboundRequest)
    (key : String) (n : Int)
    (hsk : env.PROXY_API_KEY = some key)
    (hkey : headerGetD req.headers "X-API-Key" "" = key)
    (hm : req.method = "GET" ∨ req.method = "POST")
    (hcl : contentLengthOf req.headers = Except.ok n) :
    ∃ oreq, (serverHandle env upstream req).calls = [oreq]
      ∧ oreq.url = HF_API_BASE ++ req.path := by
  rw [serverHandle_dispatch env upstream req hm,
    proxyRequest_authed env upstream req.method req key n hm hsk hkey hcl]
  exact ⟨mkOutbound env req.method req n, finishCall_calls_eq _ _ _ _, rfl⟩

/-- C6 (witness): the valid-key GET to the path /threads/123 issues one
outbound call targeting the upstream base followed by /threads/123. -/
theorem c6_witness_threads_123 :
    ∃ oreq, (serverHandle envA upstreamA reqThreads).calls = [oreq]
      ∧ oreq.url = "https://hackforums.net/api/v2/threads/123" := by
  obtain ⟨o, h1, h2⟩ := c6_target_url_concatenation envA upstreamA reqThreads
    "secret123" 0 rfl (by decide) (Or.inl rfl) rfl
  exact ⟨o, h1, by rw [h2]; rfl⟩

/-- C7 (code evaluation at the failing input): an authenticated GET
declaring the malformed Content-Length value abc makes the handler raise
an uncaught ValueError from int, so no response is produced for the
request and no upstream call is made, contradicting the claim that every
request yields a well-formed HTTP response. -/
theorem c7_malformed_content_length_escapes :
    (serverHandle envA upstreamA reqBadLen).outcome.toOption = none
    ∧ (serverHandle envA upstreamA reqBadLen).outcome
        = Except.error "ValueError: invalid literal for int() with base 10: \x27abc\x27"
    ∧ (serverHandle envA upstreamA reqBadLen).calls = [] := by
  refine ⟨rfl, rfl, rfl⟩

/-- C8: whenever one of the three mandatory configuration variables is
absent, main exits with code 1, never creates the listening server, and
prints a diagnostic line naming each absent variable as missing. -/
theorem c8_missing_config_exits (env : Env)
    (h : env.HF_CLIENT_ID = none ∨ env.HF_CLIENT_SECRET = none ∨ env.PROXY_API_KEY = none) :
    (main env).exitCode = some 1
    ∧ (main env).serverCreated = false
    ∧ (env.HF_CLIENT_ID = none → "HF_CLIENT_ID: missing" ∈ (main env).printed)
    ∧ (env.HF_CLIENT_SECRET = none → "HF_CLIENT_SECRET: missing" ∈ (main env).printed)
    ∧ (env.PROXY_API_KEY = none → "PROXY_API_KEY: missing" ∈ (main env).printed) := by
  have hreq : requiredSet env = false := by
    rcases h with h | h | h <;> simp [requiredSet, h, pyTruthy]
  refine ⟨by simp [main, hreq], by simp [main, hreq], ?_, ?_, ?_⟩
  · intro hid
    simp [main, hreq, hid, setOrMissing, pyTruthy]
  · intro hsec
    simp [main, hreq, hsec, setOrMissing, pyTruthy]
  · intro hk
    simp [main, hreq, hk, setOrMissing, pyTruthy]

/-- C8 (witness): starting with the client id variable unset exits with
code 1, creates no server, and prints the line naming HF_CLIENT_ID as
missing. -/
theorem c8_witness_missing_client_id :
    (main envMissingId).exitCode = some 1
    ∧ (main envMissingId).serverCreated = false
    ∧ (envMissingId.HF_CLIENT_ID = none → "HF_CLIENT_ID: missing" ∈ (main envMissingId).printed)
    ∧ (envMissingId.HF_CLIENT_SECRET = none → "HF_CLIENT_SECRET: missing" ∈ (main envMissingId).printed)
    ∧ (envMissingId.PROXY_API_KEY = none → "PROXY_API_KEY: missing" ∈ (main envMissingId).printed) :=
  c8_missing_config_exits envMissingId (Or.inl rfl)

/-- C9 (counterexample): with the configured proxy key abc, shorter than
the printed prefix length 8, the startup output contains the full secret
value inside the Proxy API Key line, refuting the claim that the full
secret string is never written to the log output. -/
theorem c9_short_key_printed_in_full :
    envShortKey.PROXY_API_KEY = some "abc"
    ∧ "Proxy API Key: abc..." ∈ (main envShortKey).printed
    ∧ containsFull "Proxy API Key: abc..." "abc" := by
  exact ⟨rfl, by decide, ⟨"Proxy API Key: ", "...", by decide⟩⟩

/-- C9 (amended): on successful startup the printed lines are exactly
the port announcement, the client id line showing the first at most 20
characters of the client id followed by an ellipsis, and the proxy key
line showing the first at most 8 characters of the key followed by an
ellipsis; moreover the output does not depend on the client secret, so
that secret is never written. A secret no longer than its printed prefix
length appears in full. -/
theorem c9_startup_log_structure :
    (∀ env : Env, requiredSet env = true →
      (main env).printed =
        ["Starting HackForums API proxy on port " ++ toString env.PORT,
         "HF Client ID: " ++ strTake (env.HF_CLIENT_ID.getD "") 20 ++ "...",
         "Proxy API Key: " ++ strTake (env.PROXY_API_KEY.getD "") 8 ++ "..."])
    ∧ (∀ e1 e2 : Env, requiredSet e1 = true → requiredSet e2 = true →
        e1.PORT = e2.PORT → e1.HF_CLIENT_ID = e2.HF_CLIENT_ID →
        e1.PROXY_API_KEY = e2.PROXY_API_KEY →
        (main e1).printed = (main e2).printed) := by
  constructor
  · intro env h
    simp [main, h]
  · intro e1 e2 h1 h2 hp hid hk
    simp [main, h1, h2, hp, hid, hk]

/-- C9 (witness): the concrete startup output consists of the port line
and the two redacted prefix lines, and changing only the client secret
leaves the printed output unchanged. -/
theorem c9_witness_startup_log :
    (main envA).printed =
      ["Starting HackForums API proxy on port 8080",
       "HF Client ID: hfclient...",
       "Proxy API Key: secret12..."]
    ∧ (main envA).printed = (main envB).printed := by
  constructor
  · have h := c9_startup_log_structure.1 envA rfl
    rw [h]; rfl
  · exact c9_startup_log_structure.2 envA envB rfl rfl rfl rfl rfl

/-- C10: for an authenticated GET declaring a positive Content-Length
with at least that many inbound body bytes available, the handler reads
exactly that many bytes but the single outbound GET carries no body; for
an authenticated POST under the same declaration the single outbound
call carries the first Content-Length bytes of the inbound body. -/
theorem c10_get_body_discarded :
    (∀ (env : Env) (upstream : OutboundRequest → UpstreamResult) (req : InboundRequest)
       (key : String) (n : Int),
       env.PROXY_API_KEY = some key →
       headerGetD req.headers "X-API-Key" "" = key →
       req.method = "GET" →
       contentLengthOf req.headers = Except.ok n →
       0 < n →
       n.toNat ≤ req.body.length →
       (serverHandle env upstream req).bytesRead = n.toNat
         ∧ ∃ oreq, (serverHandle env upstream req).calls = [oreq] ∧ oreq.body = none)
    ∧ (∀ (env : Env) (upstream : OutboundRequest → UpstreamResult) (req : InboundRequest)
       (key : String) (n : Int),
       env.PROXY_API_KEY = some key →
       headerGetD req.headers "X-API-Key" "" = key →
       req.method = "POST" →
       contentLengthOf req.headers = Except.ok n →
       0 < n →
       ∃ oreq, (serverHandle env upstream req).calls = [oreq]
         ∧ oreq.body = some (strTake req.body n.toNat)) := by
  constructor
  · intro env upstream req key n hsk hkey hmeth hcl hpos havail
    rw [serverHandle_dispatch env upstream req (Or.inl hmeth),
      proxyRequest_authed env upstream req.method req key n (Or.inl hmeth) hsk hkey hcl]
    constructor
    · rw [finishCall_bytesRead_eq, if_pos hpos, Nat.min_eq_left havail]
    · exact ⟨mkOutbound env req.method req n, finishCall_calls_eq _ _ _ _,
        by simp [mkOutbound, hmeth]⟩
  · intro env upstream req key n hsk hkey hmeth hcl hpos
    rw [serverHandle_dispatch env upstream req (Or.inr hmeth),
      proxyRequest_authed env upstream req.method req key n (Or.inr hmeth) hsk hkey hcl]
    exact ⟨mkOutbound env req.method req n, finishCall_calls_eq _ _ _ _,
      by simp [mkOutbound, hmeth, hpos]⟩

/-- C10 (witness): the concrete authenticated GET declaring
Content-Length 4 with body abcd reads 4 bytes and issues a bodyless
outbound call, while the matching POST forwards exactly those 4 bytes. -/
theorem c10_witness_get_post_bodies :
    ((serverHandle envA upstreamA reqGetBody).bytesRead = 4
      ∧ ∃ oreq, (serverHandle envA upstreamA reqGetBody).calls = [oreq] ∧ oreq.body = none)
    ∧ (∃ oreq, (serverHandle envA upstreamA reqPostBody).calls = [oreq]
        ∧ oreq.body = some "abcd") := by
  constructor
  · have h := c10_get_body_discarded.1 envA upstreamA reqGetBody "secret123" 4
      rfl (by decide) rfl rfl (by decide) (by decide)
    exact ⟨h.1, h.2⟩
  · obtain ⟨o, h1, h2⟩ := c10_get_body_discarded.2 envA upstreamA reqPostBody "secret123" 4
      rfl (by decide) rfl rfl (by decide)
    exact ⟨o, h1, by rw [h2]; rfl⟩

end HFProxy
